import Mathlib

/-!
Shallow embedding of src/livecam.js (the working copy of the file, lines
420-833; the earlier copy at lines 1-419 agrees on everything modelled here
except where noted in the doc comments).

The program has four pieces:
* GstLaunch        - locate the gst-launch executable, query its version;
* GstLiveCamServer - build the pipeline command string from a config;
* SocketCamWrapper - relay multipart TCP parts as base64 socket events;
* LiveCam          - orchestrator: validate config, require availability,
                     watch stdout for the readiness marker.

JavaScript numbers in the configuration are modelled as integers (every
claim is about integer values); machine-level floating point is not
involved in any claim.
-/

/-- Model of a JavaScript value, at the granularity the assertions in
livecam.js can observe (src/livecam.js lines 599-603, 772-779). -/
inductive JsValue where
  | undef
  | null
  | bool (b : Bool)
  | num (n : Int)
  | str (s : String)
  | fn
  | obj
deriving DecidableEq

/-- JavaScript typeof, as a string (always a nonempty literal). -/
def jsTypeof : JsValue → String
  | .undef => "undefined"
  | .null => "object"
  | .bool _ => "boolean"
  | .num _ => "number"
  | .str _ => "string"
  | .fn => "function"
  | .obj => "object"

/-- JavaScript truthiness (NaN does not arise in the integer model). -/
def jsTruthy : JsValue → Bool
  | .undef => false
  | .null => false
  | .bool b => b
  | .num n => n != 0
  | .str s => s != ""
  | .fn => true
  | .obj => true

/-- Node's Assert.ok(value, message): throws message iff value is falsy.
The second argument of Assert.ok is only a message, never a type check. -/
def assertOk (v : JsValue) (msg : String) : Except String Unit :=
  if jsTruthy v then .ok () else .error msg

/-- The JavaScript expression a || b on integer-valued config fields
(absent/undefined and 0 are falsy). Used for the constructor defaults. -/
def jsOrNum (a : Option Int) (d : Int) : Int :=
  match a with
  | none => d
  | some n => if n = 0 then d else n

/-- The JavaScript expression a || b on boolean-valued config fields
(absent/undefined and false are falsy). -/
def jsOrBool (a : Option Bool) (d : Bool) : Bool :=
  match a with
  | none => d
  | some b => if b then b else d

/-- Does the character list needle occur inside hay?  Model of JavaScript
String.prototype.includes. -/
def containsSub (hay needle : List Char) : Bool :=
  match hay with
  | [] => needle.isEmpty
  | _ :: t => needle.isPrefixOf hay || containsSub t needle

/-- Model of s.includes(sub) on JavaScript strings. -/
def strIncludes (s sub : String) : Bool :=
  containsSub s.data sub.data

/-! ## GstLaunch (src/livecam.js lines 437-581) -/

/-- this.gst_launch_executable (line 439). -/
def gst_launch_executable : String := "gst-launch-1.0"

/-- Model of Path.normalize.  Node's normalize only canonicalizes
separators and dot segments; it is the identity on the directory names the
claims quantify over, and the access oracle below is applied to its
result, so it is modelled as the identity. -/
def pathNormalize (s : String) : String := s

/-- Model of Path.join(base, name) on POSIX. -/
def pathJoin (a b : String) : String := a ++ "/" ++ b

/-- The candidate binary path the loop probes for a PATH directory d
(lines 502-505): Path.join(Path.normalize(d), gst_launch_executable). -/
def binOf (d : String) : String :=
  pathJoin (pathNormalize d) gst_launch_executable

/-- GstLaunch.getPath, linux branch (lines 497-509; the earlier copy,
lines 27-45, is this same loop): split PATH on ":", probe each directory
with FS.accessSync (modelled by the access oracle; a failed probe throws
and is swallowed by the per-iteration try/catch), and remember the bin
path of every directory that passes - so the last passing directory wins.
Returns undefined (none) when no directory passes. -/
def getPath (pathEnv : String) (access : String → Bool) : Option String :=
  (pathEnv.splitOn ":").foldl
    (fun acc d => if access (binOf d) then some (binOf d) else acc)
    none

/-- Environment of one GstLaunch version query: the PATH variable, the
filesystem access oracle, and the stdout of the spawnSync call of
gst-launch --version (none models a null stdout: spawn failure, timeout
with no output). An empty Buffer is truthy in JavaScript, so an empty
stdout is some "". -/
structure GstEnv where
  pathEnv : String
  access : String → Bool
  spawnStdout : Option String

/-- Model of the regex character class \s on the characters that occur in
tool output (space, tab, newline, carriage return, vertical tab, form
feed). -/
def jsIsWs (c : Char) : Bool :=
  c = ' ' || c = '\t' || c = '\n' || c = '\r' || c = '\x0b' || c = '\x0c'

/-- Model of a JavaScript regex line terminator (not matched by the dot). -/
def jsIsTerm (c : Char) : Bool :=
  c = '\n' || c = '\r' || c = Char.ofNat 0x2028 || c = Char.ofNat 0x2029

/-- The literal GStreamer of the version regex. -/
def gstLit : List Char := "GStreamer".data

/-- Backtracking case of matching the regex tail \s+.+ when the whole
remaining input w is whitespace: the engine gives characters back to \s+
until the dot can match, i.e. it picks the largest split point k ≥ 1 whose
character is not a line terminator, and the dot then matches greedily. -/
def matchTailBacktrack (w : List Char) : Option (List Char) :=
  match w.reverse.findIdx? (fun c => !jsIsTerm c) with
  | none => none
  | some j =>
    let k := w.length - 1 - j
    if k = 0 then none
    else some (w.take k ++ (w.drop k).takeWhile (fun c => !jsIsTerm c))

/-- Match the regex tail \s+.+ at the head of s, returning the matched
characters.  Greedy: \s+ takes the maximal whitespace run; if a character
follows it, that character is not whitespace hence not a line terminator
and .+ matches greedily up to the next terminator; otherwise the engine
backtracks inside the whitespace run. -/
def matchTail (s : List Char) : Option (List Char) :=
  let w := s.takeWhile jsIsWs
  if w.length = 0 then none
  else
    match s.drop w.length with
    | [] => matchTailBacktrack w
    | _ :: _ => some (w ++ (s.drop w.length).takeWhile (fun c => !jsIsTerm c))

/-- Leftmost match of /GStreamer\s+.+/ (line 543): at each position, if
the literal matches and the tail \s+.+ matches after it, the result is the
concatenation; otherwise advance one character. -/
def regexFindGst : List Char → Option (List Char)
  | [] => none
  | c :: cs =>
    if gstLit.isPrefixOf (c :: cs) then
      match matchTail ((c :: cs).drop gstLit.length) with
      | some t => some (gstLit ++ t)
      | none => regexFindGst cs
    else regexFindGst cs

/-- .replace(/GStreamer\s+/, '') (line 544): delete the leftmost
occurrence of the literal followed by a maximal nonempty whitespace run,
keeping everything around it. -/
def replaceFirstGstWs : List Char → List Char
  | [] => []
  | c :: cs =>
    if gstLit.isPrefixOf (c :: cs)
        && !(((c :: cs).drop gstLit.length).takeWhile jsIsWs).isEmpty then
      let rest := (c :: cs).drop gstLit.length
      rest.drop (rest.takeWhile jsIsWs).length
    else c :: replaceFirstGstWs cs

/-- The body of GstLaunch.getVersion's try block (lines 531-545), with its
two throw sites explicit: spawnSync of an undefined file throws a
TypeError, and match() returning null makes the [0] index throw.  The
Assert.ok(typeof(gst_launch_path), 'string') on line 533 never throws
because typeof yields a nonempty string.  A successful run can still leave
version_str undefined (stdout null or not containing GStreamer). -/
def getVersionBody (env : GstEnv) : Except String (Option String) := do
  let p := getPath env.pathEnv env.access
  _ ← assertOk (.str (jsTypeof (match p with | some s => .str s | none => .undef))) "string"
  match p with
  | none => throw "TypeError: file argument must be a string"
  | some _ =>
    match env.spawnStdout with
    | none => pure none
    | some out =>
      if strIncludes out "GStreamer" then
        match regexFindGst out.data with
        | none => throw "TypeError: cannot read 0 of null"
        | some m => pure (some (String.mk (replaceFirstGstWs m)))
      else pure none

/-- GstLaunch.getVersion (lines 528-551): the try/catch turns every thrown
exception into undefined. -/
def getVersion (env : GstEnv) : Option String :=
  match getVersionBody env with
  | .ok v => v
  | .error _ => none

/-- GstLaunch.isAvailable (lines 557-560): getVersion() !== undefined. -/
def isAvailable (env : GstEnv) : Bool :=
  (getVersion env).isSome

/-- Modelled from the spec: the queryVersion contract of section 4.1 -
runs the executable with the version flag, any failure (missing
executable, timeout/missing output, non-matching text, extraction error)
yields absent and never throws outward; the version token extracted by the
text pattern is returned exactly when the output matches. -/
def specQueryVersion (env : GstEnv) : Option String :=
  match getPath env.pathEnv env.access, env.spawnStdout with
  | some _, some out =>
    if strIncludes out "GStreamer" then
      match regexFindGst out.data with
      | some m => some (String.mk (replaceFirstGstWs m))
      | none => none
    else none
  | _, _ => none

/-! ## GstLiveCamServer (src/livecam.js lines 587-657) -/

/-- A well-typed configuration object for GstLiveCamServer: each field is
either absent (undefined) or a value of the field's intended type.
Numeric fields are modelled as integers. -/
structure RawConfig where
  fake : Option Bool
  width : Option Int
  height : Option Int
  framerate : Option Int
  grayscale : Option Bool
  deviceIndex : Option Int

/-- this.fake = config.fake || false (line 592). -/
def normFake (c : RawConfig) : Bool := jsOrBool c.fake false

/-- this.width = config.width || 800 (line 593). -/
def normWidth (c : RawConfig) : Int := jsOrNum c.width 800

/-- this.height = config.height || 600 (line 594). -/
def normHeight (c : RawConfig) : Int := jsOrNum c.height 600

/-- this.framerate = config.framerate || 30 (line 595). -/
def normFramerate (c : RawConfig) : Int := jsOrNum c.framerate 30

/-- this.grayscale = config.grayscale || false (line 596). -/
def normGrayscale (c : RawConfig) : Bool := jsOrBool c.grayscale false

/-- this.deviceIndex = config.deviceIndex || -1 (line 597); never read
again downstream. -/
def normDeviceIndex (c : RawConfig) : Int := jsOrNum c.deviceIndex (-1)

/-- this.gst_multipart_boundary (lines 605, 668). -/
def gst_multipart_boundary : String := "--videoboundary"

/-- The guard of the videoscale clause (line 617):
this.width > 0 || this.height > 0. -/
def scaleCondition (c : RawConfig) : Bool :=
  normWidth c > 0 || normHeight c > 0

/-- The guard of the videorate clause (line 621): this.framerate > 0. -/
def rateCondition (c : RawConfig) : Bool :=
  normFramerate c > 0

/-- The gst_video_src string built by the GstLiveCamServer constructor
(lines 610-627 of the working copy; the earlier copy, lines 128-144, is
identical except that its live-capture clause is "v4l2src ! decodebin").
Each conditional += is modelled as appending the clause or the empty
string; parseInt on an integer is the identity and number-to-string
conversion is decimal. -/
def gstVideoSrc (c : RawConfig) : String :=
  (if normFake c then "videotestsrc" else "-v ksvideosrc do-stats=TRUE")
    ++ (if scaleCondition c then
          " ! videoscale ! video/x-raw,width=" ++ toString (normWidth c)
            ++ ",height=" ++ toString (normHeight c)
        else "")
    ++ (if rateCondition c then
          " ! videorate ! video/x-raw,framerate=" ++ toString (normFramerate c) ++ "/1"
        else "")
    ++ (if normGrayscale c then
          " ! videobalance saturation=0.0 ! videoconvert"
        else "")

/-- The cam_pipeline string of GstLiveCamServer.start (lines 640-641):
gst_video_src plus the encode + multiplex + TCP-sink clause carrying the
boundary token and the caller-supplied address and port. -/
def camPipeline (c : RawConfig) (tcp_addr : String) (tcp_port : Int) : String :=
  gstVideoSrc c
    ++ " ! jpegenc ! multipartmux  boundary=\"" ++ gst_multipart_boundary
    ++ "\" ! tcpserversink host=" ++ tcp_addr
    ++ " port=" ++ toString tcp_port

/-- GstLaunch.spawnPipeline splits the pipeline string on single spaces
into the argv list (line 577). -/
def spawnArgs (pipeline : String) : List String :=
  pipeline.splitOn " "

/-- The GstLiveCamServer constructor's assertion phase on an arbitrarily
shaped config (lines 592-603): defaults via ||, then one Assert.ok per
field whose first argument is the typeof string of the field. -/
def gstServerChecks (fake width height framerate grayscale : JsValue) : Except String Unit := do
  let nFake := if jsTruthy fake then fake else .bool false
  let nWidth := if jsTruthy width then width else .num 800
  let nHeight := if jsTruthy height then height else .num 600
  let nFramerate := if jsTruthy framerate then framerate else .num 30
  let nGrayscale := if jsTruthy grayscale then grayscale else .bool false
  assertOk (.str (jsTypeof nFake)) "boolean"
  assertOk (.str (jsTypeof nWidth)) "number"
  assertOk (.str (jsTypeof nHeight)) "number"
  assertOk (.str (jsTypeof nFramerate)) "number"
  assertOk (.str (jsTypeof nGrayscale)) "boolean"

/-! ## LiveCam (src/livecam.js lines 754-831) -/

/-- An arbitrarily shaped LiveCam configuration, as the constructor's
assertions can observe it (lines 759-779). -/
structure LiveCamShape where
  gst_addr : JsValue
  gst_port : JsValue
  ui_addr : JsValue
  ui_port : JsValue
  broadcast_addr : JsValue
  broadcast_port : JsValue
  start : JsValue
  webcam : JsValue

/-- One guarded assertion of the LiveCam constructor:
if (this.x) Assert.ok(typeof(this.x), 'T'). -/
def guardedCheck (v : JsValue) (msg : String) : Except String Unit :=
  if jsTruthy v then assertOk (.str (jsTypeof v)) msg else .ok ()

/-- The LiveCam constructor's assertion phase (lines 759-779): defaults
via ||, then the eight guarded typeof assertions. -/
def liveCamChecks (s : LiveCamShape) : Except String Unit := do
  let gstAddr := if jsTruthy s.gst_addr then s.gst_addr else .str "127.0.0.1"
  let gstPort := if jsTruthy s.gst_port then s.gst_port else .num 10000
  let uiAddr := if jsTruthy s.ui_addr then s.ui_addr else .str "127.0.0.1"
  let uiPort := if jsTruthy s.ui_port then s.ui_port else .num 11000
  let bAddr := if jsTruthy s.broadcast_addr then s.broadcast_addr else .str "127.0.0.1"
  let bPort := if jsTruthy s.broadcast_port then s.broadcast_port else .num 12000
  let webcam := if jsTruthy s.webcam then s.webcam else .obj
  guardedCheck s.start "function"
  guardedCheck bPort "number"
  guardedCheck bAddr "string"
  guardedCheck uiPort "number"
  guardedCheck uiAddr "string"
  guardedCheck gstPort "number"
  guardedCheck gstAddr "string"
  guardedCheck webcam "object"

/-- The LiveCam constructor (lines 755-799): the assertion phase, then
throw new Error('Unable to broadcast.') when the launcher is not
available. -/
def liveCamConstruct (env : GstEnv) (s : LiveCamShape) : Except String Unit := do
  liveCamChecks s
  if isAvailable env then .ok () else .error "Unable to broadcast."

/-! ## SocketCamWrapper (src/livecam.js lines 666-733) -/

/-- The base64 alphabet used by Node's Buffer/StringDecoder. -/
def b64Alphabet : List Char :=
  "ABCDEFGHIJKLMNOPQRSTUVWXYZabcdefghijklmnopqrstuvwxyz0123456789+/".data

/-- The base64 digit of a 6-bit value. -/
def b64c (n : Nat) : Char := b64Alphabet.getD n '='

/-- Base64 encoding of a byte list (model of Node's base64 encoder),
three input bytes per four output digits, last group padded with '='. -/
def b64 : List Nat → List Char
  | [] => []
  | [a] => [b64c (a / 4), b64c (a % 4 * 16), '=', '=']
  | [a, b] => [b64c (a / 4), b64c (a % 4 * 16 + b / 16), b64c (b % 16 * 4), '=']
  | a :: b :: c :: rest =>
    b64c (a / 4) :: b64c (a % 4 * 16 + b / 16)
      :: b64c (b % 16 * 4 + c / 64) :: b64c (c % 64) :: b64 rest

/-- One write of Node's base64 StringDecoder (what part.setEncoding
('base64') installs on the part stream, line 711): emit the encoding of
the longest complete-group prefix of carry ++ chunk and keep the rest as
the new carry, so that the concatenation of the emitted strings is the
encoding of the whole byte stream. -/
def decWrite (carry chunk : List Nat) : List Char × List Nat :=
  let all := carry ++ chunk
  let n := all.length / 3 * 3
  (b64 (all.take n), all.drop n)

/-- Run the decoder over the part's data chunks and flush the remainder at
stream end; the concatenation is exactly the string the handler of lines
713-715 accumulates into frameEncoded. -/
def decRun : List Nat → List (List Nat) → List Char
  | carry, [] => b64 carry
  | carry, c :: cs => (decWrite carry c).1 ++ decRun (decWrite carry c).2 cs

/-- The frameEncoded string accumulated for one part delivered in the
given byte chunks (lines 710-715). -/
def partFrameEncoded (chunks : List (List Nat)) : String :=
  String.mk (decRun [] chunks)

/-- Observable state of a SocketCamWrapper: the lastImage slot plus the
sequence of payloads emitted as "image" events. -/
structure SocketCamWrapper where
  lastImage : String
  events : List String

/-- The constructor (lines 667-670): lastImage starts as the empty string,
nothing emitted yet. -/
def SocketCamWrapper.init : SocketCamWrapper := ⟨"", []⟩

/-- SocketCamWrapper.getLastImage (lines 672-674). -/
def SocketCamWrapper.getLastImage (w : SocketCamWrapper) : String :=
  w.lastImage

/-- The part end handler (lines 716-719): emit the accumulated
frameEncoded as an "image" event and store it in lastImage. -/
def SocketCamWrapper.onPartEnd (w : SocketCamWrapper) (frameEncoded : String) :
    SocketCamWrapper :=
  ⟨frameEncoded, w.events ++ [frameEncoded]⟩

/-- Relay processing of the parts delivered by the multipart parser.
Modelled from the spec (section 4.3): the third-party parser (dicer,
configured with the fixed boundary token, lines 705-707) splits the
boundary-delimited TCP byte stream into discrete parts; it is represented
here by the list of parts it delivers, each part being the list of byte
chunks of its body in arrival order. -/
def SocketCamWrapper.processParts (w : SocketCamWrapper)
    (parts : List (List (List Nat))) : SocketCamWrapper :=
  parts.foldl (fun w p => w.onPartEnd (partFrameEncoded p)) w

/-! ## LiveCam.broadcast (src/livecam.js lines 801-830) -/

/-- The readiness marker substring (line 810). -/
def playingMarker : String := "Setting pipeline to PLAYING"

/-- JavaScript number of a boolean, for the comparison includes(...) > 0
on line 810. -/
def jsNumOfBool (b : Bool) : Int := if b then 1 else 0

/-- Observable state of the stdout listener installed by broadcast():
whether wrap has been invoked and whether the configured start callback
has been invoked. -/
structure BroadcastState where
  wrapped : Bool
  cbInvoked : Bool
deriving DecidableEq

/-- One stdout data event (lines 807-816): if the chunk's string contains
the marker (the code writes includes(...) > 0, coercing the boolean to a
number), invoke wrap and then, if a start callback is configured, invoke
it.  cbConfigured is the truthiness of this.start. -/
def stdoutStep (cbConfigured : Bool) (st : BroadcastState) (chunk : String) :
    BroadcastState :=
  if jsNumOfBool (strIncludes chunk playingMarker) > 0 then
    ⟨true, st.cbInvoked || cbConfigured⟩
  else st

/-- The cumulative effect of a sequence of stdout chunks observed after
broadcast() is called (initially wrap has not run and the callback has not
fired). -/
def broadcastStdout (cbConfigured : Bool) (chunks : List String) : BroadcastState :=
  chunks.foldl (stdoutStep cbConfigured) ⟨false, false⟩

/-! ## Helper lemmas -/

/-- typeof always yields a nonempty, hence truthy, string. -/
theorem typeof_truthy (v : JsValue) : jsTruthy (.str (jsTypeof v)) = true := by
  cases v <;> rfl

/-- An Assert.ok whose first argument is a typeof string never throws. -/
theorem assertOk_typeof (v : JsValue) (msg : String) :
    assertOk (.str (jsTypeof v)) msg = .ok () := by
  simp [assertOk, typeof_truthy]

/-- A guarded typeof assertion of the LiveCam constructor never throws. -/
theorem guardedCheck_ok (v : JsValue) (msg : String) :
    guardedCheck v msg = .ok () := by
  by_cases h : jsTruthy v <;> simp [guardedCheck, h, assertOk_typeof]

/-- The GstLiveCamServer assertion phase always succeeds. -/
theorem gstServerChecks_ok (fake width height framerate grayscale : JsValue) :
    gstServerChecks fake width height framerate grayscale = .ok () := by
  simp [gstServerChecks, assertOk_typeof]; rfl

/-- The LiveCam assertion phase always succeeds. -/
theorem liveCamChecks_ok (s : LiveCamShape) : liveCamChecks s = .ok () := by
  simp [liveCamChecks, guardedCheck_ok]; rfl

/-- A fold that overwrites its accumulator on every passing element ends
at the last passing element. -/
theorem foldl_lastwins (p : String → Bool) (f : String → String) :
    ∀ (l : List String) (acc : Option String),
      l.foldl (fun a d => if p d then some (f d) else a) acc
        = match (l.filter p).getLast? with
          | some d => some (f d)
          | none => acc := by
  intro l
  induction l with
  | nil => intro acc; rfl
  | cons d t ih =>
    intro acc
    simp only [List.foldl_cons, List.filter_cons]
    cases h : p d with
    | false => simp [h, ih]
    | true =>
      simp only [h, if_true, ih, List.getLast?_cons]
      cases hl : (t.filter p).getLast? <;> simp [List.getLast?_cons, hl]

/-- Base64 splits over an append at a complete-group boundary. -/
theorem b64_append (xs ys : List Nat) (h : xs.length % 3 = 0) :
    b64 (xs ++ ys) = b64 xs ++ b64 ys := by
  match xs, h with
  | [], _ => simp [b64]
  | [a], h => simp at h
  | [a, b], h => simp at h
  | a :: b :: c :: t, h =>
    have ht : t.length % 3 = 0 := by simp [List.length_cons] at h; omega
    have ih := b64_append t ys ht
    simp [b64, ih]

/-- Running the chunk decoder and flushing at the end encodes exactly the
carry followed by all the chunk bytes: splitting a part's bytes into
arbitrary data chunks never changes the accumulated base64 string. -/
theorem decRun_flatten (cs : List (List Nat)) :
    ∀ (carry : List Nat), decRun carry cs = b64 (carry ++ cs.flatten) := by
  induction cs with
  | nil => intro carry; simp [decRun]
  | cons c cs ih =>
    intro carry
    have hle : (carry ++ c).length / 3 * 3 ≤ (carry ++ c).length :=
      Nat.div_mul_le_self _ _
    have hmod : ((carry ++ c).take ((carry ++ c).length / 3 * 3)).length % 3 = 0 := by
      rw [List.length_take]; omega
    simp only [decRun, decWrite, ih]
    rw [← b64_append _ _ hmod, ← List.append_assoc, List.take_append_drop]
    simp [List.append_assoc]

/-- The comparison includes(...) > 0 of line 810 is equivalent to the
boolean itself. -/
theorem jsNumOfBool_pos (b : Bool) : (jsNumOfBool b > 0) ↔ b = true := by
  cases b <;> simp [jsNumOfBool]

/-- Cumulative effect of the stdout listener from an arbitrary state. -/
theorem broadcast_fold (cb : Bool) (chunks : List String) :
    ∀ (st : BroadcastState),
      (chunks.foldl (stdoutStep cb) st).wrapped
          = (st.wrapped || chunks.any (fun c => strIncludes c playingMarker)) ∧
      (chunks.foldl (stdoutStep cb) st).cbInvoked
          = (st.cbInvoked || (chunks.any (fun c => strIncludes c playingMarker) && cb)) := by
  induction chunks with
  | nil => intro st; simp
  | cons c t ih =>
    intro st
    simp only [List.foldl_cons, List.any_cons]
    cases h : strIncludes c playingMarker with
    | false =>
      simp only [stdoutStep, h, jsNumOfBool]
      simp [ih]
    | true =>
      simp only [stdoutStep, h, jsNumOfBool]
      rcases ih ⟨true, st.cbInvoked || cb⟩ with ⟨hw, hc⟩
      simp [hw, hc]
      all_goals cases st.cbInvoked <;> cases cb <;> simp

/-! ## Claim theorems -/

/-- C1: for a multipart stream containing exactly two parts (delivered by
the boundary-token parser as two parts whose bodies arrive in the byte
chunks p1 and p2), the relay emits exactly two "image" events, the payload
of each is the base64 encoding of the corresponding part's raw bytes, and
afterwards getLastImage() returns the base64 encoding of the second
part's bytes. -/
theorem relay_two_parts (p1 p2 : List (List Nat)) :
    (SocketCamWrapper.init.processParts [p1, p2]).events
        = [String.mk (b64 p1.flatten), String.mk (b64 p2.flatten)] ∧
    (SocketCamWrapper.init.processParts [p1, p2]).events.length = 2 ∧
    (SocketCamWrapper.init.processParts [p1, p2]).getLastImage
        = String.mk (b64 p2.flatten) := by
  simp [SocketCamWrapper.processParts, SocketCamWrapper.onPartEnd,
    SocketCamWrapper.init, SocketCamWrapper.getLastImage, partFrameEncoded,
    decRun_flatten]

/-- C2 (code fact): no configuration value can make any constructor
assertion throw - every assertion is Assert.ok(typeof(x), 'T'), whose
first argument is always a truthy string, so both the GstLiveCamServer
and the LiveCam assertion phases succeed on arbitrarily typed (in
particular malformed) configuration fields. -/
theorem malformed_config_not_fatal
    (fake width height framerate grayscale : JsValue) (s : LiveCamShape) :
    gstServerChecks fake width height framerate grayscale = .ok () ∧
    liveCamChecks s = .ok () :=
  ⟨gstServerChecks_ok fake width height framerate grayscale, liveCamChecks_ok s⟩

/-- C3: after broadcast(), over any sequence of stdout chunks, the relay
has been started (wrap invoked) exactly when some chunk contains the
readiness marker, and the configured start callback has been invoked
exactly when it is configured and some chunk contains the marker.  Since
this holds for every chunk sequence, it holds for every prefix of an
observation, so the relay is never started before the marker is seen. -/
theorem broadcast_marker_gates_wrap (cbConfigured : Bool) (chunks : List String) :
    ((broadcastStdout cbConfigured chunks).wrapped = true
        ↔ ∃ c ∈ chunks, strIncludes c playingMarker = true) ∧
    ((broadcastStdout cbConfigured chunks).cbInvoked = true
        ↔ (cbConfigured = true ∧ ∃ c ∈ chunks, strIncludes c playingMarker = true)) := by
  rcases broadcast_fold cbConfigured chunks ⟨false, false⟩ with ⟨hw, hc⟩
  unfold broadcastStdout
  rw [hw, hc]
  constructor
  · simp [← List.any_eq_true]
  · cases cbConfigured <;> simp [← List.any_eq_true]

/-- C4: when the version query fails, isAvailable() is false and the
LiveCam constructor throws 'Unable to broadcast.'. -/
theorem version_failure_fatal (env : GstEnv) (s : LiveCamShape)
    (h : getVersion env = none) :
    isAvailable env = false ∧
    liveCamConstruct env s = .error "Unable to broadcast." := by
  have ha : isAvailable env = false := by simp [isAvailable, h]
  refine ⟨ha, ?_⟩
  simp [liveCamConstruct, liveCamChecks_ok, ha]; rfl

/-- An environment with no accessible gst-launch executable anywhere on
PATH (the simulated missing executable of the spec's test scenario). -/
def envNoGst : GstEnv := ⟨"/usr/bin:/usr/local/bin", fun _ => false, none⟩

/-- The default (empty) LiveCam configuration. -/
def shapeDefault : LiveCamShape :=
  ⟨.undef, .undef, .undef, .undef, .undef, .undef, .undef, .undef⟩

/-- In the environment with no accessible executable, the version query
fails. -/
theorem envNoGst_version_none : getVersion envNoGst = none := by
  have hp : getPath envNoGst.pathEnv envNoGst.access = none := by
    unfold getPath
    rw [foldl_lastwins (fun d => envNoGst.access (binOf d)) binOf]
    simp [envNoGst]
  simp [getVersion, getVersionBody, hp, assertOk, jsTypeof, jsTruthy]; rfl

/-- Witness for C4 at a concrete environment. -/
theorem version_failure_fatal_witness :
    isAvailable envNoGst = false ∧
    liveCamConstruct envNoGst shapeDefault = .error "Unable to broadcast." :=
  version_failure_fatal envNoGst shapeDefault envNoGst_version_none

/-- C5: getPath returns the bin path of the last directory of the PATH
list (in PATH order) where the probe succeeds, and undefined when the
probe fails everywhere: its result is the last element of the filtered
directory list, mapped to its bin path. -/
theorem getPath_lastwins (pathEnv : String) (access : String → Bool) :
    getPath pathEnv access
      = (((pathEnv.splitOn ":").filter (fun d => access (binOf d))).getLast?).map binOf := by
  unfold getPath
  rw [foldl_lastwins (fun d => access (binOf d)) binOf]
  cases ((pathEnv.splitOn ":").filter (fun d => access (binOf d))).getLast? <;> simp

/-- C6: getVersion never propagates an exception - both throw sites of
its body are caught and downgraded to undefined - and for every spawn
outcome it returns exactly what the queryVersion contract prescribes:
absent on any failure (no executable path, null stdout, output without
the GStreamer token, output where the version pattern does not match),
and the extracted version token exactly when the output matches. -/
theorem getVersion_never_throws (env : GstEnv) :
    getVersion env = specQueryVersion env := by
  unfold getVersion getVersionBody specQueryVersion
  cases hp : getPath env.pathEnv env.access with
  | none => simp [assertOk, jsTypeof, jsTruthy] <;> rfl
  | some p =>
    cases ho : env.spawnStdout with
    | none => simp [assertOk, jsTypeof, jsTruthy] <;> rfl
    | some out =>
      by_cases hi : strIncludes out "GStreamer"
      · cases hm : regexFindGst out.data <;>
          simp [assertOk, jsTypeof, jsTruthy, hi, hm] <;> rfl
      · simp [assertOk, jsTypeof, jsTruthy, hi] <;> rfl

/-- C8: pipeline command construction is a pure function of the
configuration: equal configurations give the identical command string;
turning grayscale on appends exactly the desaturation clause to the
grayscale-off string, everything else unchanged; and toggling the
synthetic-source flag changes exactly the leading source clause, with the
same downstream tail in both cases. -/
theorem gstVideoSrc_pure_toggle (c : RawConfig) :
    (∀ c2 : RawConfig, c = c2 → gstVideoSrc c = gstVideoSrc c2) ∧
    (gstVideoSrc {c with grayscale := some true}
        = gstVideoSrc {c with grayscale := some false}
            ++ " ! videobalance saturation=0.0 ! videoconvert") ∧
    (∃ tail,
      gstVideoSrc {c with fake := some true} = "videotestsrc" ++ tail ∧
      gstVideoSrc {c with fake := some false} = "-v ksvideosrc do-stats=TRUE" ++ tail) := by
  refine ⟨fun c2 h => by rw [h], ?_, ?_⟩
  · simp [gstVideoSrc, normFake, normGrayscale, scaleCondition, rateCondition,
      normWidth, normHeight, normFramerate, jsOrBool, String.append_empty,
      String.append_assoc]
  · refine ⟨(if scaleCondition c then
        " ! videoscale ! video/x-raw,width=" ++ toString (normWidth c)
          ++ ",height=" ++ toString (normHeight c) else "")
      ++ ((if rateCondition c then
            " ! videorate ! video/x-raw,framerate=" ++ toString (normFramerate c) ++ "/1"
          else "")
        ++ (if normGrayscale c then
              " ! videobalance saturation=0.0 ! videoconvert" else "")), ?_, ?_⟩ <;>
    simp [gstVideoSrc, normFake, normGrayscale, scaleCondition, rateCondition,
      normWidth, normHeight, normFramerate, jsOrBool, String.append_assoc]

/-- C9: the device index has no downstream effect - two configurations
that differ only in deviceIndex produce the identical gst_video_src
string, the identical pipeline command string, and hence the identical
spawned argument list. -/
theorem deviceIndex_unused (c : RawConfig) (d1 d2 : Option Int)
    (addr : String) (port : Int) :
    gstVideoSrc {c with deviceIndex := d1} = gstVideoSrc {c with deviceIndex := d2} ∧
    camPipeline {c with deviceIndex := d1} addr port
        = camPipeline {c with deviceIndex := d2} addr port ∧
    spawnArgs (camPipeline {c with deviceIndex := d1} addr port)
        = spawnArgs (camPipeline {c with deviceIndex := d2} addr port) :=
  ⟨rfl, rfl, rfl⟩

/-- The concrete configuration of the spec's scenario:
fake true, width 640, height 480, framerate 15, grayscale false. -/
def cfg640 : RawConfig := ⟨some true, some 640, some 480, some 15, some false, none⟩

/-- C7: for the configuration of the spec's concrete scenario, the
pipeline command string starts with the synthetic-source clause, contains
the scale clause with width=640,height=480 and the rate clause with
framerate=15/1, and ends with the encode + multiplex + TCP-sink clause
carrying the boundary token and the caller-supplied relay address and
port. -/
theorem camPipeline_concrete (addr : String) (port : Int) :
    (∃ rest, camPipeline cfg640 addr port = "videotestsrc" ++ rest) ∧
    (∃ pre rest, camPipeline cfg640 addr port
        = pre ++ " ! videoscale ! video/x-raw,width=640,height=480" ++ rest) ∧
    (∃ pre rest, camPipeline cfg640 addr port
        = pre ++ " ! videorate ! video/x-raw,framerate=15/1" ++ rest) ∧
    (∃ pre, camPipeline cfg640 addr port
        = pre ++ ("! jpegenc ! multipartmux  boundary=\"" ++ gst_multipart_boundary
            ++ "\" ! tcpserversink host=" ++ addr ++ " port=" ++ toString port)) := by
  refine ⟨⟨" ! videoscale ! video/x-raw,width=640,height=480 ! videorate ! video/x-raw,framerate=15/1 ! jpegenc ! multipartmux  boundary=\"--videoboundary\" ! tcpserversink host="
      ++ (addr ++ (" port=" ++ toString port)), ?_⟩,
    ⟨"videotestsrc",
      " ! videorate ! video/x-raw,framerate=15/1 ! jpegenc ! multipartmux  boundary=\"--videoboundary\" ! tcpserversink host="
      ++ (addr ++ (" port=" ++ toString port)), ?_⟩,
    ⟨"videotestsrc ! videoscale ! video/x-raw,width=640,height=480",
      " ! jpegenc ! multipartmux  boundary=\"--videoboundary\" ! tcpserversink host="
      ++ (addr ++ (" port=" ++ toString port)), ?_⟩,
    ⟨"videotestsrc ! videoscale ! video/x-raw,width=640,height=480 ! videorate ! video/x-raw,framerate=15/1 ", ?_⟩⟩ <;>
  · simp only [camPipeline, gstVideoSrc, cfg640, gst_multipart_boundary,
      scaleCondition, rateCondition, normFake, normWidth, normHeight,
      normFramerate, normGrayscale, jsOrNum, jsOrBool, String.append_assoc]
    rfl

/-- C10: falsy configuration values are replaced by their defaults (width
0 becomes 800, height 0 becomes 600, framerate 0 becomes 30, explicit
false flags stay false), so a zero width/height/framerate cannot suppress
the scale or rate clause: the scale clause is omitted exactly when both
supplied dimensions are negative, the rate clause exactly when the
supplied framerate is negative, and whenever the guard holds the clause is
present in the command string. -/
theorem falsy_defaults_and_clause_omission (c : RawConfig) :
    normWidth {c with width := some 0} = 800 ∧
    normHeight {c with height := some 0} = 600 ∧
    normFramerate {c with framerate := some 0} = 30 ∧
    normFake {c with fake := some false} = false ∧
    normGrayscale {c with grayscale := some false} = false ∧
    ((scaleCondition c = false)
        ↔ ((∃ w, c.width = some w ∧ w < 0) ∧ (∃ h, c.height = some h ∧ h < 0))) ∧
    ((rateCondition c = false) ↔ (∃ f, c.framerate = some f ∧ f < 0)) ∧
    (scaleCondition c = true → ∃ rest, gstVideoSrc c
        = (if normFake c then "videotestsrc" else "-v ksvideosrc do-stats=TRUE")
          ++ (" ! videoscale ! video/x-raw,width=" ++ toString (normWidth c)
              ++ ",height=" ++ toString (normHeight c)) ++ rest) ∧
    (rateCondition c = true → ∃ pre rest, gstVideoSrc c
        = pre ++ (" ! videorate ! video/x-raw,framerate="
            ++ toString (normFramerate c) ++ "/1") ++ rest) := by
  refine ⟨by simp [normWidth, jsOrNum], by simp [normHeight, jsOrNum],
    by simp [normFramerate, jsOrNum], by simp [normFake, jsOrBool],
    by simp [normGrayscale, jsOrBool], ?_, ?_, ?_, ?_⟩
  · cases hw : c.width <;> cases hh : c.height <;>
      simp only [scaleCondition, normWidth, normHeight, jsOrNum, hw, hh] <;>
      simp [Bool.or_eq_false_iff, decide_eq_false_iff_not] <;>
      split_ifs <;> omega
  · cases hf : c.framerate <;>
      simp only [rateCondition, normFramerate, jsOrNum, hf] <;>
      simp [decide_eq_false_iff_not] <;>
      split_ifs <;> omega
  · intro hs
    refine ⟨(if rateCondition c then
        " ! videorate ! video/x-raw,framerate=" ++ toString (normFramerate c) ++ "/1"
      else "")
      ++ (if normGrayscale c then " ! videobalance saturation=0.0 ! videoconvert" else ""), ?_⟩
    simp only [gstVideoSrc, hs, if_true, String.append_assoc]
  · intro hr
    refine ⟨(if normFake c then "videotestsrc" else "-v ksvideosrc do-stats=TRUE")
        ++ (if scaleCondition c then
              " ! videoscale ! video/x-raw,width=" ++ toString (normWidth c)
                ++ ",height=" ++ toString (normHeight c)
            else ""),
      (if normGrayscale c then " ! videobalance saturation=0.0 ! videoconvert" else ""), ?_⟩
    simp only [gstVideoSrc, hr, if_true, String.append_assoc]
